import Mathlib

/-!
# coursegopro: the transactional update of `db-update-transaction.go`

A shallow embedding of `UpdateProjectBudgets`, of the package-level `fail`
helper and of the transaction part of `main`
(`src/08-databases/db-update-transaction-idiomatic/db-update-transaction.go`),
together with a small model of the `database/sql` handle they drive.

Modelling conventions

* The relational store is a record of tables, each a list of rows.  Only the
  columns the statements of the program read or write are kept.  The schema is
  not part of the repository; `budget` and `quantity` are exact integers.
* A `Tx` carries a private working copy of the store and the `done` flag of
  `database/sql`: after `Commit` or `Rollback` every further call on it
  answers `sql.ErrTxDone` and has no effect.  The persisted store changes only
  when a `Commit` reaches the server and succeeds.
* Every call that can fail in the server or driver takes its fault from a
  `Faults` record, so theorems quantify over all outcomes of each statement.
* `log.Panic` ends the function with a panic (deferred calls still run),
  `log.Fatal` and `log.Fatalf` end the process (deferred calls do not run).
* The file does not compile as Go: `albumID` is not declared (it is a
  parameter here), the package-level `db` handle is a parameter, `return
  fail(err)` before line 93 calls the package-level `fail`, which panics, and
  the closure `fail` of line 93 returns a single value (read as the zero order
  id together with the wrapped error).
-/

namespace CourseGo

/-! ## Errors and outcomes -/

/-- Go `error` values met by the program. -/
inductive GoError where
  | errNoRows
  | errTxDone
  | driver (msg : String)
  | errorf (msg : String)
  deriving DecidableEq, Repr

/-- The `Error()` text of an error. -/
def GoError.Error : GoError → String
  | .errNoRows => "sql: no rows in result set"
  | .errTxDone => "sql: transaction has already been committed or rolled back"
  | .driver m => m
  | .errorf m => m

/-- How a call ends: it returns its results, it panics (`log.Panic`), or the
process is terminated (`log.Fatal`, `log.Fatalf`). -/
inductive Outcome where
  | returned (orderID : Int) (err : Option GoError)
  | panicked (v : String)
  | exited (msg : String)
  deriving DecidableEq, Repr

/-- The error text a caller can observe from an outcome, if any: the text of
the returned error, or the value of the panic. -/
def Outcome.reportedError : Outcome → Option String
  | .returned _ (some e) => some e.Error
  | .returned _ none => none
  | .panicked v => some v
  | .exited _ => none

/-! ## Store -/

/-- Row of table `album` (columns used by the program). -/
structure Album where
  id : Int
  quantity : Int
  deriving DecidableEq, Repr

/-- Row of table `projects` (columns used by the update). -/
structure Project where
  id : Int
  budget : Int
  deriving DecidableEq, Repr

/-- Row of table `album_order`. -/
structure AlbumOrder where
  id : Int
  album_id : Int
  cust_id : Int
  quantity : Int
  date : Nat
  deriving DecidableEq, Repr

/-- The persisted relational store. -/
structure Store where
  album : List Album
  projects : List Project
  album_order : List AlbumOrder
  deriving DecidableEq, Repr

/-! ## Statements -/

/-- The four SQL statements of `UpdateProjectBudgets`, with their bound
parameters. -/
inductive Stmt where
  /-- Line 81: `SELECT (quantity >= ?) from album where id = ?`. -/
  | selectEnough (quantity albumID : Int)
  /-- Line 97: `UPDATE projects SET budget = ROUND(budget * 1.2) WHERE id = ?;`. -/
  | updateBudget (projectID : Int)
  /-- Line 121: `UPDATE album SET quantity = quantity - ? WHERE id = ?`. -/
  | updateAlbum (quantity albumID : Int)
  /-- Line 128: `INSERT INTO album_order (album_id, cust_id, quantity, date) VALUES (?, ?, ?, ?)`. -/
  | insertOrder (albumID custID quantity : Int) (date : Nat)
  deriving DecidableEq, Repr

/-- UPDATE and INSERT statements. -/
def Stmt.isMutating : Stmt → Bool
  | .selectEnough _ _ => false
  | .updateBudget _ => true
  | .updateAlbum _ _ => true
  | .insertOrder _ _ _ _ => true

/-- SQL `ROUND(n / d)` on exact values, `0 < d`: nearest integer, halves away
from zero. -/
def sqlRound (n d : Int) : Int :=
  if 0 ≤ n then (2 * n + d) / (2 * d) else -((2 * (-n) + d) / (2 * d))

/-- The expression `ROUND(budget * 1.2)` of line 97. -/
def newBudget (budget : Int) : Int := sqlRound (budget * 12) 10

/-- The value `ROUND(budget * 1.1)`: a budget increased by 10%. -/
def budgetPlus10Percent (budget : Int) : Int := sqlRound (budget * 11) 10

/-- Outcome of `sql.Result`: `LastInsertId()` and `RowsAffected()`. -/
structure Result where
  lastInsertId : Int
  rowsAffected : Int
  deriving DecidableEq, Repr

/-- The row of `album` read by `where id = ?` (first match). -/
def Store.findAlbum (s : Store) (albumID : Int) : Option Album :=
  s.album.find? (fun a => a.id == albumID)

/-- The row of `projects` with the given id (first match). -/
def Store.findProject (s : Store) (projectID : Int) : Option Project :=
  s.projects.find? (fun p => p.id == projectID)

/-- Next AUTO_INCREMENT id of `album_order`. -/
def Store.nextOrderID (s : Store) : Int :=
  (s.album_order.map (fun o => o.id)).foldl max 0 + 1

/-- Effect of a mutating statement on a store, with the result it reports.
`rowsAffected` counts the rows whose value changed. -/
def Stmt.apply : Stmt → Store → Store × Result
  | .selectEnough _ _, s => (s, ⟨0, 0⟩)
  | .updateBudget projectID, s =>
      (⟨s.album,
        s.projects.map (fun p => if p.id = projectID then ⟨p.id, newBudget p.budget⟩ else p),
        s.album_order⟩,
       ⟨0, ((s.projects.filter
          (fun p => p.id = projectID ∧ newBudget p.budget ≠ p.budget)).length : Int)⟩)
  | .updateAlbum quantity albumID, s =>
      (⟨s.album.map (fun a => if a.id = albumID then ⟨a.id, a.quantity - quantity⟩ else a),
        s.projects,
        s.album_order⟩,
       ⟨0, ((s.album.filter
          (fun a => a.id = albumID ∧ a.quantity - quantity ≠ a.quantity)).length : Int)⟩)
  | .insertOrder albumID custID quantity date, s =>
      (⟨s.album, s.projects,
        s.album_order ++ [⟨s.nextOrderID, albumID, custID, quantity, date⟩]⟩,
       ⟨s.nextOrderID, 1⟩)

/-! ## The `database/sql` handle -/

/-- Isolation levels of `database/sql`. -/
inductive IsolationLevel where
  | LevelDefault
  | LevelReadUncommitted
  | LevelReadCommitted
  | LevelWriteCommitted
  | LevelRepeatableRead
  | LevelSnapshot
  | LevelSerializable
  | LevelLinearizable
  deriving DecidableEq, Repr

/-- Options of `BeginTx` (`sql.TxOptions`). -/
structure TxOptions where
  Isolation : IsolationLevel
  ReadOnly : Bool
  deriving DecidableEq, Repr

/-- The isolation level a `BeginTx` call asks for; `nil` options ask for the
default level of the store. -/
def requestedIsolation : Option TxOptions → IsolationLevel
  | none => .LevelDefault
  | some o => o.Isolation

/-- Calls observed on the database handle and on transactions, each with the
error it answered. -/
inductive Event where
  | beginTx (opts : Option TxOptions) (err : Option GoError)
  | query (s : Stmt) (err : Option GoError)
  | exec (s : Stmt) (err : Option GoError)
  | commit (err : Option GoError)
  | rollback (err : Option GoError)
  | logPrintf (format : String) (arg : Int)
  | getProjects
  deriving DecidableEq, Repr

/-- The persisted store and the calls made so far. -/
structure World where
  persisted : Store
  trace : List Event
  deriving DecidableEq, Repr

/-- Record a call. -/
def World.emit (w : World) (e : Event) : World := ⟨w.persisted, w.trace ++ [e]⟩

/-- A `*sql.Tx`: the `done` flag and the uncommitted view of the store. -/
structure Tx where
  done : Bool
  work : Store
  deriving DecidableEq, Repr

/-- Model of `db.BeginTx(ctx, opts)`. -/
def BeginTx (fault : Option GoError) (opts : Option TxOptions) (w : World) :
    World × Except GoError Tx :=
  match fault with
  | some e => (w.emit (.beginTx opts (some e)), .error e)
  | none => (w.emit (.beginTx opts none), .ok ⟨false, w.persisted⟩)

/-- Model of `tx.QueryRowContext(ctx, q, args...).Scan(&enough)` for the
inventory query: the fault of the driver if any, `sql.ErrNoRows` when no row
matches, else the scanned boolean. -/
def Tx.QueryRowScan (fault : Option GoError) (quantity albumID : Int) (tx : Tx) (w : World) :
    World × Except GoError Bool :=
  if tx.done then (w.emit (.query (.selectEnough quantity albumID) (some .errTxDone)), .error .errTxDone)
  else
    match fault with
    | some e => (w.emit (.query (.selectEnough quantity albumID) (some e)), .error e)
    | none =>
      match tx.work.findAlbum albumID with
      | none => (w.emit (.query (.selectEnough quantity albumID) (some .errNoRows)), .error .errNoRows)
      | some a => (w.emit (.query (.selectEnough quantity albumID) none), .ok (decide (a.quantity ≥ quantity)))

/-- Model of `tx.ExecContext(ctx, stmt, args...)`. -/
def Tx.ExecContext (fault : Option GoError) (s : Stmt) (tx : Tx) (w : World) :
    World × Tx × Except GoError Result :=
  if tx.done then (w.emit (.exec s (some .errTxDone)), tx, .error .errTxDone)
  else
    match fault with
    | some e => (w.emit (.exec s (some e)), tx, .error e)
    | none => (w.emit (.exec s none), ⟨tx.done, (s.apply tx.work).1⟩, .ok (s.apply tx.work).2)

/-- Model of `tx.Commit()`: the first terminal call marks the transaction
done; the working copy becomes the persisted store when the server accepts the
commit. -/
def Tx.Commit (fault : Option GoError) (tx : Tx) (w : World) : World × Tx × Option GoError :=
  if tx.done then (w.emit (.commit (some .errTxDone)), tx, some .errTxDone)
  else
    match fault with
    | some e => (w.emit (.commit (some e)), ⟨true, tx.work⟩, some e)
    | none => (⟨tx.work, w.trace ++ [.commit none]⟩, ⟨true, tx.work⟩, none)

/-- Model of `tx.Rollback()`: the first terminal call marks the transaction
done; the persisted store is never changed. -/
def Tx.Rollback (fault : Option GoError) (tx : Tx) (w : World) : World × Tx × Option GoError :=
  if tx.done then (w.emit (.rollback (some .errTxDone)), tx, some .errTxDone)
  else (w.emit (.rollback fault), ⟨true, tx.work⟩, fault)

/-- Faults of the server or driver, one per call site of
`UpdateProjectBudgets` (`none`: the call succeeds when it reaches the
server). -/
structure Faults where
  /-- Line 72, `db.BeginTx`. -/
  beginTx : Option GoError
  /-- Line 81, `QueryRowContext(...).Scan`. -/
  scan : Option GoError
  /-- Line 97, `tx.ExecContext` of the budget UPDATE. -/
  execBudget : Option GoError
  /-- Line 99, `tx.Rollback`. -/
  rollback : Option GoError
  /-- Line 104, `result.RowsAffected`. -/
  rowsAffected : Option GoError
  /-- Line 111, `tx.Commit`. -/
  commit : Option GoError
  /-- Line 121, `tx.ExecContext` of the album UPDATE. -/
  execAlbum : Option GoError
  /-- Line 128, `tx.ExecContext` of the INSERT. -/
  execInsert : Option GoError
  /-- Line 134, `result.LastInsertId`. -/
  lastInsertId : Option GoError
  /-- Line 140, `tx.Commit`. -/
  commitFinal : Option GoError
  /-- Line 77, the deferred `tx.Rollback`. -/
  rollbackDeferred : Option GoError
  deriving DecidableEq, Repr

/-- No fault at any call site. -/
def Faults.none : Faults :=
  ⟨.none, .none, .none, .none, .none, .none, .none, .none, .none, .none, .none⟩

/-! ## The program -/

/-- Lines 148-150, the package-level `fail`: `log.Panic(err)`. -/
def fail (err : GoError) : Outcome := .panicked err.Error

/-- Lines 93-95, the closure `fail` of `UpdateProjectBudgets`:
`fmt.Errorf("CreateOrder: %v", err)`, returned with the zero order id. -/
def UpdateProjectBudgets.fail (err : GoError) : Outcome :=
  .returned 0 (some (.errorf ("CreateOrder: " ++ err.Error)))

/-- Lines 72-145 of `UpdateProjectBudgets`, without the deferred call: the
outcome, the world, and the transaction once it has been begun. -/
def UpdateProjectBudgets.body (f : Faults) (albumID : Int) (now : Nat) (w0 : World)
    (projectID quantity custID : Int) : Outcome × World × Option Tx :=
  -- 72: tx, err := db.BeginTx(ctx, nil)
  match BeginTx f.beginTx none w0 with
  | (w1, .error err) => (CourseGo.fail err, w1, none)
  | (w1, .ok tx) =>
    -- 81: SELECT (quantity >= ?) from album where id = ?
    match tx.QueryRowScan f.scan quantity albumID w1 with
    | (w2, .error err) =>
      if err = .errNoRows then (CourseGo.fail (.errorf "no such album"), w2, some tx)
      else (CourseGo.fail err, w2, some tx)
    | (w2, .ok enough) =>
      if !enough then (CourseGo.fail (.errorf "not enough inventory"), w2, some tx)
      else
        -- 97: UPDATE projects SET budget = ROUND(budget * 1.2) WHERE id = ?;
        match tx.ExecContext f.execBudget (.updateBudget projectID) w2 with
        | (w3, tx3, .error execErr) =>
          match tx3.Rollback f.rollback w3 with
          | (w4, tx4, some rollbackErr) =>
            (.exited ("update failed: " ++ execErr.Error ++ ", unable to rollback: "
                ++ rollbackErr.Error ++ "\n"), w4, some tx4)
          | (w4, tx4, none) => (.exited ("update failed: " ++ execErr.Error), w4, some tx4)
        | (w3, tx3, .ok result) =>
          -- 104: rows, err := result.RowsAffected()
          match f.rowsAffected with
          | some err => (.exited err.Error, w3, some tx3)
          | none =>
            let w4 := w3.emit (.logPrintf "Total budgets updated: %d\n" result.rowsAffected)
            -- 111: tx.Commit()
            match tx3.Commit f.commit w4 with
            | (w5, tx5, some err) => (.exited err.Error, w5, some tx5)
            | (w5, tx5, none) =>
              -- 121: UPDATE album SET quantity = quantity - ? WHERE id = ?
              match tx5.ExecContext f.execAlbum (.updateAlbum quantity albumID) w5 with
              | (w6, tx6, .error err) => (UpdateProjectBudgets.fail err, w6, some tx6)
              | (w6, tx6, .ok _) =>
                -- 128: INSERT INTO album_order ...
                match tx6.ExecContext f.execInsert (.insertOrder albumID custID quantity now) w6 with
                | (w7, tx7, .error err) => (UpdateProjectBudgets.fail err, w7, some tx7)
                | (w7, tx7, .ok result) =>
                  -- 134: orderID, err := result.LastInsertId()
                  match f.lastInsertId with
                  | some err => (UpdateProjectBudgets.fail err, w7, some tx7)
                  | none =>
                    -- 140: tx.Commit()
                    match tx7.Commit f.commitFinal w7 with
                    | (w8, tx8, some err) => (UpdateProjectBudgets.fail err, w8, some tx8)
                    | (w8, tx8, none) => (.returned result.lastInsertId none, w8, some tx8)

/-- The function `UpdateProjectBudgets(ctx, projectID, quantity, custID)` run
on the store `db`: the body, then the deferred `tx.Rollback()` of line 77
unless the process was terminated or the transaction was never begun. -/
def UpdateProjectBudgets (f : Faults) (albumID : Int) (now : Nat) (db : Store)
    (projectID quantity custID : Int) : Outcome × World :=
  match UpdateProjectBudgets.body f albumID now ⟨db, []⟩ projectID quantity custID with
  | (.exited msg, w, _) => (.exited msg, w)
  | (o, w, none) => (o, w)
  | (o, w, some tx) => (o, (tx.Rollback f.rollbackDeferred w).1)

/-- Faults of the calls made by `main`. -/
structure MainFaults where
  /-- Line 20, `sql.Open`. -/
  sqlOpen : Option GoError
  /-- Line 42, `db.PingContext`. -/
  ping : Option GoError
  /-- Line 48, a failing query or scan inside the first `GetProjects`. -/
  getProjectsBefore : Option GoError
  /-- Line 57, `db.BeginTx`. -/
  beginTx : Option GoError
  /-- Line 63, a failing query or scan inside the second `GetProjects`. -/
  getProjectsAfter : Option GoError
  deriving DecidableEq, Repr

/-- No fault in `main`. -/
def MainFaults.none : MainFaults := ⟨.none, .none, .none, .none, .none⟩

/-- Lines 151-196, `GetProjects(ctx, conn)`: reads table `projects` through
the pool, outside any transaction; every error inside it is `log.Fatal`.  The
columns other than id and budget and the `projects_users` lookup are not
touched by any statement of the update and are left out. -/
def GetProjects (fault : Option GoError) (w : World) : World × Except String (List Project) :=
  match fault with
  | some e => (w.emit .getProjects, .error e.Error)
  | none => (w.emit .getProjects, .ok w.persisted.projects)

/-- Lines 19-65, `main`, as far as the store is concerned: the outcome, the
world, and the transaction of line 57 as it is left when `main` ends. -/
def main (f : MainFaults) (db : Store) : Outcome × World × Option Tx :=
  -- 20: db, err := sql.Open(...); panic(err.Error())
  match f.sqlOpen with
  | some e => (.panicked e.Error, ⟨db, []⟩, none)
  | none =>
    -- 48: projects := GetProjects(ctx, db)
    match GetProjects f.getProjectsBefore ⟨db, []⟩ with
    | (w1, .error msg) => (.exited msg, w1, none)
    | (w1, .ok _) =>
      -- 57: tx, err := db.BeginTx(ctx, &sql.TxOptions{Isolation: sql.LevelSerializable})
      match BeginTx f.beginTx (some ⟨.LevelSerializable, false⟩) w1 with
      | (w2, .error err) => (.exited err.Error, w2, none)
      | (w2, .ok tx) =>
        -- 63: projects = GetProjects(ctx, db)
        match GetProjects f.getProjectsAfter w2 with
        | (w3, .error msg) => (.exited msg, w3, some tx)
        | (w3, .ok _) => (.returned 0 none, w3, some tx)

/-! ## Observations on traces -/

/-- Some UPDATE or INSERT was issued through `ExecContext`. -/
def mutatingIssued (trace : List Event) : Bool :=
  trace.any (fun e => match e with
    | .exec s _ => s.isMutating
    | _ => false)

/-- Number of terminal calls (`Commit` or `Rollback`) in a trace. -/
def terminalCalls (trace : List Event) : Nat :=
  (trace.filter (fun e => match e with
    | .commit _ => true
    | .rollback _ => true
    | _ => false)).length

/-- Number of terminal calls that reach the server: those not answered with
`sql.ErrTxDone`. -/
def effectiveTerminalCalls (trace : List Event) : Nat :=
  (trace.filter (fun e => match e with
    | .commit err => decide (err ≠ some .errTxDone)
    | .rollback err => decide (err ≠ some .errTxDone)
    | _ => false)).length

/-- Some statement is run on the transaction after a terminal call. -/
def statementAfterTerminal : List Event → Bool
  | [] => false
  | .commit _ :: rest =>
      rest.any (fun e => match e with
        | .exec _ _ => true
        | .query _ _ => true
        | _ => false) || statementAfterTerminal rest
  | .rollback _ :: rest =>
      rest.any (fun e => match e with
        | .exec _ _ => true
        | .query _ _ => true
        | _ => false) || statementAfterTerminal rest
  | _ :: rest => statementAfterTerminal rest

/-- The isolation levels requested by the `BeginTx` calls of a trace. -/
def beginIsolations (trace : List Event) : List IsolationLevel :=
  trace.filterMap (fun e => match e with
    | .beginTx opts _ => some (requestedIsolation opts)
    | _ => none)

/-- Rows of `album_order` carrying the given album, customer and quantity. -/
def auditRows (s : Store) (albumID custID quantity : Int) : List AlbumOrder :=
  s.album_order.filter (fun o => o.album_id = albumID ∧ o.cust_id = custID ∧ o.quantity = quantity)

/-! ## Fixed inputs used in the evaluations -/

/-- One album with quantity 5, two projects, no order. -/
def store5 : Store := ⟨[⟨1, 5⟩], [⟨1, 100⟩, ⟨2, 50⟩], []⟩

/-- One album with quantity 2, two projects, no order. -/
def store2 : Store := ⟨[⟨1, 2⟩], [⟨1, 100⟩, ⟨2, 50⟩], []⟩

/-- The budget UPDATE is refused by the server. -/
def budgetUpdateFails : Faults :=
  ⟨.none, .none, some (.driver "Error 1264: Out of range value for column budget"),
   .none, .none, .none, .none, .none, .none, .none, .none⟩


/-! ## The execution paths of `UpdateProjectBudgets` -/

section Paths

variable (f : Faults) (albumID : Int) (now : Nat) (db : Store) (projectID quantity custID : Int)

/-- Path 1: `BeginTx` fails (line 74). -/
theorem run_begin_fails (e : GoError) (hb : f.beginTx = some e) :
    UpdateProjectBudgets f albumID now db projectID quantity custID =
      (.panicked e.Error, ⟨db, [.beginTx none (some e)]⟩) := by
  simp [UpdateProjectBudgets, UpdateProjectBudgets.body, BeginTx, World.emit, hb, CourseGo.fail]

/-- Path 2: the inventory query fails in the driver (lines 83-86). -/
theorem run_scan_fails (e : GoError) (hb : f.beginTx = none) (hs : f.scan = some e) :
    UpdateProjectBudgets f albumID now db projectID quantity custID =
      (.panicked (if e = .errNoRows then "no such album" else e.Error),
       ⟨db, [.beginTx none none, .query (.selectEnough quantity albumID) (some e),
             .rollback f.rollbackDeferred]⟩) := by
  by_cases he : e = .errNoRows <;>
    simp [UpdateProjectBudgets, UpdateProjectBudgets.body, BeginTx, Tx.QueryRowScan, World.emit,
      hb, hs, he, CourseGo.fail, Tx.Rollback, GoError.Error]

/-- Path 3: no row of `album` has the id (line 84). -/
theorem run_no_row (hb : f.beginTx = none) (hs : f.scan = none)
    (ha : db.findAlbum albumID = none) :
    UpdateProjectBudgets f albumID now db projectID quantity custID =
      (.panicked "no such album",
       ⟨db, [.beginTx none none, .query (.selectEnough quantity albumID) (some .errNoRows),
             .rollback f.rollbackDeferred]⟩) := by
  simp [UpdateProjectBudgets, UpdateProjectBudgets.body, BeginTx, Tx.QueryRowScan, World.emit,
    hb, hs, ha, CourseGo.fail, Tx.Rollback, GoError.Error]

/-- Path 4: the row exists with too small a quantity (line 89). -/
theorem run_not_enough (a : Album) (hb : f.beginTx = none) (hs : f.scan = none)
    (ha : db.findAlbum albumID = some a) (hq : a.quantity < quantity) :
    UpdateProjectBudgets f albumID now db projectID quantity custID =
      (.panicked "not enough inventory",
       ⟨db, [.beginTx none none, .query (.selectEnough quantity albumID) none,
             .rollback f.rollbackDeferred]⟩) := by
  simp [UpdateProjectBudgets, UpdateProjectBudgets.body, BeginTx, Tx.QueryRowScan, World.emit,
    hb, hs, ha, hq, CourseGo.fail, Tx.Rollback, GoError.Error]

/-- Path 5: the budget UPDATE fails (lines 98-103). -/
theorem run_budget_fails (a : Album) (e : GoError) (hb : f.beginTx = none) (hs : f.scan = none)
    (ha : db.findAlbum albumID = some a) (hq : quantity ≤ a.quantity)
    (hx : f.execBudget = some e) :
    UpdateProjectBudgets f albumID now db projectID quantity custID =
      ((match f.rollback with
        | some r => .exited ("update failed: " ++ e.Error ++ ", unable to rollback: "
            ++ r.Error ++ "\n")
        | none => .exited ("update failed: " ++ e.Error)),
       ⟨db, [.beginTx none none, .query (.selectEnough quantity albumID) none,
             .exec (.updateBudget projectID) (some e), .rollback f.rollback]⟩) := by
  cases hr : f.rollback <;>
    simp [UpdateProjectBudgets, UpdateProjectBudgets.body, BeginTx, Tx.QueryRowScan, World.emit,
      hb, hs, ha, hq, hx, hr, Tx.ExecContext, Tx.Rollback]

/-- Path 6: `RowsAffected` fails (line 106). -/
theorem run_rowsAffected_fails (a : Album) (e : GoError) (hb : f.beginTx = none)
    (hs : f.scan = none) (ha : db.findAlbum albumID = some a) (hq : quantity ≤ a.quantity)
    (hx : f.execBudget = none) (hr : f.rowsAffected = some e) :
    UpdateProjectBudgets f albumID now db projectID quantity custID =
      (.exited e.Error,
       ⟨db, [.beginTx none none, .query (.selectEnough quantity albumID) none,
             .exec (.updateBudget projectID) none]⟩) := by
  simp [UpdateProjectBudgets, UpdateProjectBudgets.body, BeginTx, Tx.QueryRowScan, World.emit,
    hb, hs, ha, hq, hx, hr, Tx.ExecContext]

/-- Path 7: the `Commit` of line 111 fails (line 112). -/
theorem run_commit_fails (a : Album) (e : GoError) (hb : f.beginTx = none)
    (hs : f.scan = none) (ha : db.findAlbum albumID = some a) (hq : quantity ≤ a.quantity)
    (hx : f.execBudget = none) (hr : f.rowsAffected = none) (hc : f.commit = some e) :
    UpdateProjectBudgets f albumID now db projectID quantity custID =
      (.exited e.Error,
       ⟨db, [.beginTx none none, .query (.selectEnough quantity albumID) none,
             .exec (.updateBudget projectID) none,
             .logPrintf "Total budgets updated: %d\n"
               ((Stmt.updateBudget projectID).apply db).2.rowsAffected,
             .commit (some e)]⟩) := by
  simp [UpdateProjectBudgets, UpdateProjectBudgets.body, BeginTx, Tx.QueryRowScan, World.emit,
    hb, hs, ha, hq, hx, hr, hc, Tx.ExecContext, Tx.Commit]

/-- Path 8: the `Commit` of line 111 succeeds; the album UPDATE of line 121 is
then refused with `sql.ErrTxDone` and the closure `fail` returns. -/
theorem run_commit_ok (a : Album) (hb : f.beginTx = none)
    (hs : f.scan = none) (ha : db.findAlbum albumID = some a) (hq : quantity ≤ a.quantity)
    (hx : f.execBudget = none) (hr : f.rowsAffected = none) (hc : f.commit = none) :
    UpdateProjectBudgets f albumID now db projectID quantity custID =
      (.returned 0 (some (.errorf ("CreateOrder: " ++ GoError.errTxDone.Error))),
       ⟨((Stmt.updateBudget projectID).apply db).1,
        [.beginTx none none, .query (.selectEnough quantity albumID) none,
         .exec (.updateBudget projectID) none,
         .logPrintf "Total budgets updated: %d\n"
           ((Stmt.updateBudget projectID).apply db).2.rowsAffected,
         .commit none,
         .exec (.updateAlbum quantity albumID) (some .errTxDone),
         .rollback (some .errTxDone)]⟩) := by
  simp [UpdateProjectBudgets, UpdateProjectBudgets.body, BeginTx, Tx.QueryRowScan, World.emit,
    hb, hs, ha, hq, hx, hr, hc, Tx.ExecContext, Tx.Commit, Tx.Rollback,
    UpdateProjectBudgets.fail]

end Paths


/-! ## Claims -/

/-- C1: when the inventory precondition fails (no row of `album` has the id,
or the row has less than the requested quantity), then whatever the driver
answers, the persisted store after `UpdateProjectBudgets` is the store before
it and no UPDATE or INSERT was issued on the transaction. -/
theorem C1_precondition_failure_leaves_store_unchanged (f : Faults) (albumID : Int) (now : Nat)
    (db : Store) (projectID quantity custID : Int)
    (h : db.findAlbum albumID = none ∨
      ∃ a, db.findAlbum albumID = some a ∧ a.quantity < quantity) :
    (UpdateProjectBudgets f albumID now db projectID quantity custID).2.persisted = db ∧
    mutatingIssued (UpdateProjectBudgets f albumID now db projectID quantity custID).2.trace
      = false := by
  cases hb : f.beginTx with
  | some e =>
    rw [run_begin_fails f albumID now db projectID quantity custID e hb]; exact ⟨rfl, rfl⟩
  | none =>
    cases hs : f.scan with
    | some e =>
      rw [run_scan_fails f albumID now db projectID quantity custID e hb hs]; exact ⟨rfl, rfl⟩
    | none =>
      rcases h with h | ⟨a, h, hq⟩
      · rw [run_no_row f albumID now db projectID quantity custID hb hs h]; exact ⟨rfl, rfl⟩
      · rw [run_not_enough f albumID now db projectID quantity custID a hb hs h hq]
        exact ⟨rfl, rfl⟩

/-- C1 at a concrete input: album 1 holds 2 units, 3 are requested. -/
theorem C1_precondition_failure_witness :
    (store2.findAlbum 1 = none ∨ ∃ a, store2.findAlbum 1 = some a ∧ a.quantity < 3) ∧
    (UpdateProjectBudgets Faults.none 1 0 store2 1 3 7).2.persisted = store2 ∧
    mutatingIssued (UpdateProjectBudgets Faults.none 1 0 store2 1 3 7).2.trace = false :=
  ⟨Or.inr ⟨⟨1, 2⟩, by decide, by decide⟩,
   C1_precondition_failure_leaves_store_unchanged Faults.none 1 0 store2 1 3 7
     (Or.inr ⟨⟨1, 2⟩, by decide, by decide⟩)⟩

/-- C2: evaluation at album quantity 5, project budget 100, request
(project 1, quantity 3, customer 7), no fault.  The `Commit` of line 111 makes
the budget change persistent (100 becomes 120), the later statements are
refused, and the store is left with the budget change but without any
`album_order` row and with the album quantity untouched. -/
theorem C2_budget_change_persisted_without_audit_row :
    (UpdateProjectBudgets Faults.none 1 0 store5 1 3 7).2.persisted
      = ⟨[⟨1, 5⟩], [⟨1, 120⟩, ⟨2, 50⟩], []⟩ ∧
    (UpdateProjectBudgets Faults.none 1 0 store5 1 3 7).2.persisted.projects ≠ store5.projects ∧
    auditRows (UpdateProjectBudgets Faults.none 1 0 store5 1 3 7).2.persisted 1 7 3 = [] ∧
    (UpdateProjectBudgets Faults.none 1 0 store5 1 3 7).2.persisted.findAlbum 1
      = some ⟨1, 5⟩ := by
  decide

/-- C3: evaluation at quantity 5, requested 3, no fault: the call returns the
error of the refused album UPDATE, the quantity is still 5 and there is no
audit row.  Moreover no input and no behaviour of the driver makes
`UpdateProjectBudgets` return a nil error. -/
theorem C3_success_scenario_returns_error :
    (UpdateProjectBudgets Faults.none 1 0 store5 1 3 7).1
      = .returned 0 (some (.errorf
          "CreateOrder: sql: transaction has already been committed or rolled back")) ∧
    (UpdateProjectBudgets Faults.none 1 0 store5 1 3 7).2.persisted.findAlbum 1
      = some ⟨1, 5⟩ ∧
    (UpdateProjectBudgets Faults.none 1 0 store5 1 3 7).2.persisted.album_order = [] ∧
    ∀ (f : Faults) (albumID : Int) (now : Nat) (db : Store) (projectID quantity custID : Int)
      (orderID : Int),
      (UpdateProjectBudgets f albumID now db projectID quantity custID).1
        ≠ .returned orderID none := by
  refine ⟨by decide, by decide, by decide, ?_⟩
  intro f albumID now db projectID quantity custID orderID
  cases hb : f.beginTx with
  | some e => rw [run_begin_fails f albumID now db projectID quantity custID e hb]; simp
  | none =>
    cases hs : f.scan with
    | some e => rw [run_scan_fails f albumID now db projectID quantity custID e hb hs]; simp
    | none =>
      cases ha : db.findAlbum albumID with
      | none => rw [run_no_row f albumID now db projectID quantity custID hb hs ha]; simp
      | some a =>
        by_cases hq : quantity ≤ a.quantity
        · cases hx : f.execBudget with
          | some e =>
            rw [run_budget_fails f albumID now db projectID quantity custID a e hb hs ha hq hx]
            cases f.rollback <;> simp
          | none =>
            cases hr : f.rowsAffected with
            | some e =>
              rw [run_rowsAffected_fails f albumID now db projectID quantity custID a e
                hb hs ha hq hx hr]
              simp
            | none =>
              cases hc : f.commit with
              | some e =>
                rw [run_commit_fails f albumID now db projectID quantity custID a e
                  hb hs ha hq hx hr hc]
                simp
              | none =>
                rw [run_commit_ok f albumID now db projectID quantity custID a
                  hb hs ha hq hx hr hc]
                simp
        · rw [run_not_enough f albumID now db projectID quantity custID a hb hs ha
            (lt_of_not_ge hq)]
          simp


/-- C4 as stated fails: album quantity 5, requested 3, the server refuses the
budget UPDATE.  The call does not return to its caller: the process is
terminated by `log.Fatalf`. -/
theorem C4_failed_budget_update_terminates_process :
    (UpdateProjectBudgets budgetUpdateFails 1 0 store5 1 3 7).1
      = .exited "update failed: Error 1264: Out of range value for column budget" ∧
    ∀ (orderID : Int) (err : Option GoError),
      (UpdateProjectBudgets budgetUpdateFails 1 0 store5 1 3 7).1 ≠ .returned orderID err := by
  have h : (UpdateProjectBudgets budgetUpdateFails 1 0 store5 1 3 7).1
      = .exited "update failed: Error 1264: Out of range value for column budget" := by
    decide
  refine ⟨h, ?_⟩
  intro orderID err
  rw [h]
  simp

/-- C4 amended.  When the budget UPDATE fails after the precondition has
passed, `Rollback` is invoked on the transaction (the only terminal call),
the process is terminated and the persisted store is the store before the
call.  When the album UPDATE is answered with an error, the call returns that
error, wrapped by the closure `fail`, to its caller, a `Rollback` call is
made, and the persisted `album` table is the one before the call. -/
theorem C4_failed_statement_rolls_back (f : Faults) (albumID : Int) (now : Nat)
    (db : Store) (projectID quantity custID : Int) :
    (∀ (a : Album) (e : GoError), f.beginTx = none → f.scan = none →
      db.findAlbum albumID = some a → quantity ≤ a.quantity → f.execBudget = some e →
      Event.rollback f.rollback ∈
        (UpdateProjectBudgets f albumID now db projectID quantity custID).2.trace ∧
      terminalCalls (UpdateProjectBudgets f albumID now db projectID quantity custID).2.trace
        = 1 ∧
      (∃ msg, (UpdateProjectBudgets f albumID now db projectID quantity custID).1
        = .exited msg) ∧
      (UpdateProjectBudgets f albumID now db projectID quantity custID).2.persisted = db) ∧
    (∀ e : GoError, Event.exec (.updateAlbum quantity albumID) (some e) ∈
        (UpdateProjectBudgets f albumID now db projectID quantity custID).2.trace →
      (UpdateProjectBudgets f albumID now db projectID quantity custID).1
        = UpdateProjectBudgets.fail e ∧
      (∃ r, Event.rollback r ∈
        (UpdateProjectBudgets f albumID now db projectID quantity custID).2.trace) ∧
      (UpdateProjectBudgets f albumID now db projectID quantity custID).2.persisted.album
        = db.album) := by
  constructor
  · intro a e hb hs ha hq hx
    rw [run_budget_fails f albumID now db projectID quantity custID a e hb hs ha hq hx]
    refine ⟨by simp, rfl, ?_, rfl⟩
    cases f.rollback <;> simp
  · intro e
    cases hb : f.beginTx with
    | some e1 => rw [run_begin_fails f albumID now db projectID quantity custID e1 hb]; simp
    | none =>
      cases hs : f.scan with
      | some e1 =>
        rw [run_scan_fails f albumID now db projectID quantity custID e1 hb hs]; simp
      | none =>
        cases ha : db.findAlbum albumID with
        | none => rw [run_no_row f albumID now db projectID quantity custID hb hs ha]; simp
        | some a =>
          by_cases hq : quantity ≤ a.quantity
          · cases hx : f.execBudget with
            | some e1 =>
              rw [run_budget_fails f albumID now db projectID quantity custID a e1
                hb hs ha hq hx]
              simp
            | none =>
              cases hr : f.rowsAffected with
              | some e1 =>
                rw [run_rowsAffected_fails f albumID now db projectID quantity custID a e1
                  hb hs ha hq hx hr]
                simp
              | none =>
                cases hc : f.commit with
                | some e1 =>
                  rw [run_commit_fails f albumID now db projectID quantity custID a e1
                    hb hs ha hq hx hr hc]
                  simp
                | none =>
                  rw [run_commit_ok f albumID now db projectID quantity custID a
                    hb hs ha hq hx hr hc]
                  intro hmem
                  have he : e = .errTxDone := by simpa using hmem
                  subst he
                  exact ⟨rfl, ⟨some .errTxDone, by simp⟩, rfl⟩
          · rw [run_not_enough f albumID now db projectID quantity custID a hb hs ha
              (lt_of_not_ge hq)]
            simp

/-- C4 amended, at concrete inputs: a refused budget UPDATE, and the album
UPDATE refused with `sql.ErrTxDone`. -/
theorem C4_failed_statement_witness :
    (Event.rollback budgetUpdateFails.rollback ∈
        (UpdateProjectBudgets budgetUpdateFails 1 0 store5 1 3 7).2.trace ∧
      terminalCalls (UpdateProjectBudgets budgetUpdateFails 1 0 store5 1 3 7).2.trace = 1 ∧
      (∃ msg, (UpdateProjectBudgets budgetUpdateFails 1 0 store5 1 3 7).1 = .exited msg) ∧
      (UpdateProjectBudgets budgetUpdateFails 1 0 store5 1 3 7).2.persisted = store5) ∧
    ((UpdateProjectBudgets Faults.none 1 0 store5 1 3 7).1
        = UpdateProjectBudgets.fail .errTxDone ∧
      (∃ r, Event.rollback r ∈ (UpdateProjectBudgets Faults.none 1 0 store5 1 3 7).2.trace) ∧
      (UpdateProjectBudgets Faults.none 1 0 store5 1 3 7).2.persisted.album = store5.album) :=
  ⟨(C4_failed_statement_rolls_back budgetUpdateFails 1 0 store5 1 3 7).1 ⟨1, 5⟩
      (.driver "Error 1264: Out of range value for column budget")
      (by decide) (by decide) (by decide) (by decide) (by decide),
   (C4_failed_statement_rolls_back Faults.none 1 0 store5 1 3 7).2 .errTxDone (by decide)⟩


/-- C5 as stated fails: album quantity 5, requested 3, project id 9 matches no
row of `projects`.  The budget UPDATE reports zero affected rows; the count is
logged, the transaction is committed, the album UPDATE is still issued, and
the only `Rollback` call is the deferred one, refused with `sql.ErrTxDone`. -/
theorem C5_zero_rows_is_committed :
    ((Stmt.updateBudget 9).apply store5).2.rowsAffected = 0 ∧
    (UpdateProjectBudgets Faults.none 1 0 store5 9 3 7).2.trace =
      [.beginTx none none, .query (.selectEnough 3 1) none, .exec (.updateBudget 9) none,
       .logPrintf "Total budgets updated: %d\n" 0, .commit none,
       .exec (.updateAlbum 3 1) (some .errTxDone), .rollback (some .errTxDone)] := by
  decide

/-- C5 amended.  When the budget UPDATE executes without error and reports
zero affected rows, the unit of work is not aborted: the count is logged and
the next call on the transaction is `Commit`, no `Rollback` comes before it;
when that `Commit` succeeds the transaction is committed. -/
theorem C5_zero_rows_goes_on_to_commit (f : Faults) (albumID : Int) (now : Nat)
    (db : Store) (projectID quantity custID : Int) (a : Album)
    (hb : f.beginTx = none) (hs : f.scan = none)
    (ha : db.findAlbum albumID = some a) (hq : quantity ≤ a.quantity)
    (hx : f.execBudget = none) (hr : f.rowsAffected = none)
    (hz : ((Stmt.updateBudget projectID).apply db).2.rowsAffected = 0) :
    (∃ rest, (UpdateProjectBudgets f albumID now db projectID quantity custID).2.trace =
      [.beginTx none none, .query (.selectEnough quantity albumID) none,
       .exec (.updateBudget projectID) none,
       .logPrintf "Total budgets updated: %d\n" 0, .commit f.commit] ++ rest) ∧
    (f.commit = none →
      Event.commit none ∈
        (UpdateProjectBudgets f albumID now db projectID quantity custID).2.trace ∧
      (UpdateProjectBudgets f albumID now db projectID quantity custID).2.persisted
        = ((Stmt.updateBudget projectID).apply db).1) := by
  cases hc : f.commit with
  | some e =>
    rw [run_commit_fails f albumID now db projectID quantity custID a e hb hs ha hq hx hr hc, hz]
    exact ⟨⟨[], rfl⟩, fun h => by simp at h⟩
  | none =>
    rw [run_commit_ok f albumID now db projectID quantity custID a hb hs ha hq hx hr hc, hz]
    exact ⟨⟨_, rfl⟩, fun _ => ⟨by simp, rfl⟩⟩

/-- C5 amended, at a concrete input: project id 9 matches no row. -/
theorem C5_zero_rows_witness :
    (∃ rest, (UpdateProjectBudgets Faults.none 1 0 store5 9 3 7).2.trace =
      [.beginTx none none, .query (.selectEnough 3 1) none, .exec (.updateBudget 9) none,
       .logPrintf "Total budgets updated: %d\n" 0, .commit Faults.none.commit] ++ rest) ∧
    (Faults.none.commit = none →
      Event.commit none ∈ (UpdateProjectBudgets Faults.none 1 0 store5 9 3 7).2.trace ∧
      (UpdateProjectBudgets Faults.none 1 0 store5 9 3 7).2.persisted
        = ((Stmt.updateBudget 9).apply store5).1) :=
  C5_zero_rows_goes_on_to_commit Faults.none 1 0 store5 9 3 7 ⟨1, 5⟩
    (by decide) (by decide) (by decide) (by decide) (by decide) (by decide) (by decide)

/-- C6 as stated fails, evaluation with no fault.  In `UpdateProjectBudgets` the transaction
receives two terminal calls (the `Commit` of line 111 and the deferred
`Rollback`) and the album UPDATE is run on it after the `Commit`.  In `main`
the transaction of line 57 receives no terminal call and is still open when
`main` returns. -/
theorem C6_two_terminal_calls_and_none :
    terminalCalls (UpdateProjectBudgets Faults.none 1 0 store5 1 3 7).2.trace = 2 ∧
    statementAfterTerminal (UpdateProjectBudgets Faults.none 1 0 store5 1 3 7).2.trace
      = true ∧
    (main MainFaults.none store5).1 = .returned 0 none ∧
    (main MainFaults.none store5).2.1.trace
      = [.getProjects, .beginTx (some ⟨.LevelSerializable, false⟩) none, .getProjects] ∧
    terminalCalls (main MainFaults.none store5).2.1.trace = 0 ∧
    (main MainFaults.none store5).2.2 = some ⟨false, store5⟩ := by
  decide

/-- C6 amended.  On every run of `UpdateProjectBudgets` at most one terminal
call reaches the server (any further `Commit` or `Rollback` is answered with
`sql.ErrTxDone`), and when the transaction has been begun and the call ends by
returning or panicking, at least one terminal call has been made on it. -/
theorem C6_one_effective_terminal_call (f : Faults) (albumID : Int) (now : Nat)
    (db : Store) (projectID quantity custID : Int) :
    effectiveTerminalCalls
      (UpdateProjectBudgets f albumID now db projectID quantity custID).2.trace ≤ 1 ∧
    (f.beginTx = none →
      (∀ msg, (UpdateProjectBudgets f albumID now db projectID quantity custID).1
        ≠ .exited msg) →
      1 ≤ terminalCalls
        (UpdateProjectBudgets f albumID now db projectID quantity custID).2.trace) := by
  cases hb : f.beginTx with
  | some e =>
    rw [run_begin_fails f albumID now db projectID quantity custID e hb]
    exact ⟨by simp [effectiveTerminalCalls], fun h => by simp at h⟩
  | none =>
    cases hs : f.scan with
    | some e =>
      rw [run_scan_fails f albumID now db projectID quantity custID e hb hs]
      refine ⟨?_, fun _ _ => by simp [terminalCalls]⟩
      by_cases h : f.rollbackDeferred = some .errTxDone <;> simp [effectiveTerminalCalls, h]
    | none =>
      cases ha : db.findAlbum albumID with
      | none =>
        rw [run_no_row f albumID now db projectID quantity custID hb hs ha]
        refine ⟨?_, fun _ _ => by simp [terminalCalls]⟩
        by_cases h : f.rollbackDeferred = some .errTxDone <;> simp [effectiveTerminalCalls, h]
      | some a =>
        by_cases hq : quantity ≤ a.quantity
        · cases hx : f.execBudget with
          | some e =>
            rw [run_budget_fails f albumID now db projectID quantity custID a e
              hb hs ha hq hx]
            refine ⟨?_, fun _ _ => by simp [terminalCalls]⟩
            by_cases h : f.rollback = some .errTxDone <;> simp [effectiveTerminalCalls, h]
          | none =>
            cases hr : f.rowsAffected with
            | some e =>
              rw [run_rowsAffected_fails f albumID now db projectID quantity custID a e
                hb hs ha hq hx hr]
              exact ⟨by simp [effectiveTerminalCalls], fun _ h => absurd rfl (h e.Error)⟩
            | none =>
              cases hc : f.commit with
              | some e =>
                rw [run_commit_fails f albumID now db projectID quantity custID a e
                  hb hs ha hq hx hr hc]
                refine ⟨?_, fun _ _ => by simp [terminalCalls]⟩
                by_cases h : e = .errTxDone <;> simp [effectiveTerminalCalls, h]
              | none =>
                rw [run_commit_ok f albumID now db projectID quantity custID a
                  hb hs ha hq hx hr hc]
                exact ⟨by simp [effectiveTerminalCalls], fun _ _ => by simp [terminalCalls]⟩
        · rw [run_not_enough f albumID now db projectID quantity custID a hb hs ha
            (lt_of_not_ge hq)]
          refine ⟨?_, fun _ _ => by simp [terminalCalls]⟩
          by_cases h : f.rollbackDeferred = some .errTxDone <;> simp [effectiveTerminalCalls, h]

/-- C6 amended, at album quantity 5 and requested quantity 3: one terminal
call reaches the server and at least one terminal call is made. -/
theorem C6_one_effective_terminal_call_witness :
    effectiveTerminalCalls (UpdateProjectBudgets Faults.none 1 0 store5 1 3 7).2.trace ≤ 1 ∧
    1 ≤ terminalCalls (UpdateProjectBudgets Faults.none 1 0 store5 1 3 7).2.trace :=
  ⟨(C6_one_effective_terminal_call Faults.none 1 0 store5 1 3 7).1,
   (C6_one_effective_terminal_call Faults.none 1 0 store5 1 3 7).2 (by decide)
     (fun msg h => by
       have h2 : (UpdateProjectBudgets Faults.none 1 0 store5 1 3 7).1
           = UpdateProjectBudgets.fail .errTxDone := by decide
       rw [h2] at h
       simp [UpdateProjectBudgets.fail] at h)⟩

/-- C7 as stated fails: album quantity 2, requested 3.  The failure is raised
by `log.Panic` with the text `not enough inventory`; nothing is returned to
the caller and the text is not `insufficient quantity`. -/
theorem C7_reason_is_not_insufficient_quantity :
    (UpdateProjectBudgets Faults.none 1 0 store2 1 3 7).1
      = .panicked "not enough inventory" ∧
    (UpdateProjectBudgets Faults.none 1 0 store2 1 3 7).1.reportedError
      ≠ some "insufficient quantity" ∧
    ∀ (orderID : Int) (err : Option GoError),
      (UpdateProjectBudgets Faults.none 1 0 store2 1 3 7).1 ≠ .returned orderID err := by
  have h : (UpdateProjectBudgets Faults.none 1 0 store2 1 3 7).1
      = .panicked "not enough inventory" := by decide
  refine ⟨h, by decide, ?_⟩
  intro orderID err
  rw [h]
  simp

/-- C7 amended.  When the album row exists with a quantity below the
requested one (and the transaction begins and the row is read without a
driver error), the failure reported by `UpdateProjectBudgets` carries the text
`not enough inventory`, no UPDATE or INSERT is issued and the persisted store
is unchanged. -/
theorem C7_not_enough_inventory (f : Faults) (albumID : Int) (now : Nat)
    (db : Store) (projectID quantity custID : Int) (a : Album)
    (hb : f.beginTx = none) (hs : f.scan = none)
    (ha : db.findAlbum albumID = some a) (hq : a.quantity < quantity) :
    (UpdateProjectBudgets f albumID now db projectID quantity custID).1.reportedError
      = some "not enough inventory" ∧
    mutatingIssued (UpdateProjectBudgets f albumID now db projectID quantity custID).2.trace
      = false ∧
    (UpdateProjectBudgets f albumID now db projectID quantity custID).2.persisted = db := by
  rw [run_not_enough f albumID now db projectID quantity custID a hb hs ha hq]
  exact ⟨rfl, rfl, rfl⟩

/-- C7 amended, at quantity 2 and requested quantity 3. -/
theorem C7_not_enough_inventory_witness :
    (UpdateProjectBudgets Faults.none 1 0 store2 1 3 7).1.reportedError
      = some "not enough inventory" ∧
    mutatingIssued (UpdateProjectBudgets Faults.none 1 0 store2 1 3 7).2.trace = false ∧
    (UpdateProjectBudgets Faults.none 1 0 store2 1 3 7).2.persisted = store2 :=
  C7_not_enough_inventory Faults.none 1 0 store2 1 3 7 ⟨1, 2⟩
    (by decide) (by decide) (by decide) (by decide)


/-- C8: for every requested quantity, the outcome reported when no row of
`album` has the id (`no such album`) differs from the outcome reported when
the row exists with a quantity below the requested one (`not enough
inventory`), and the two differ already by their error text (when the
transaction begins and the row is read without a driver error). -/
theorem C8_not_found_differs_from_not_enough (f1 f2 : Faults) (albumID : Int) (now1 now2 : Nat)
    (db1 db2 : Store) (projectID quantity custID : Int) (a : Album)
    (hb1 : f1.beginTx = none) (hs1 : f1.scan = none)
    (hb2 : f2.beginTx = none) (hs2 : f2.scan = none)
    (h1 : db1.findAlbum albumID = none)
    (h2 : db2.findAlbum albumID = some a) (hq : a.quantity < quantity) :
    (UpdateProjectBudgets f1 albumID now1 db1 projectID quantity custID).1.reportedError
      = some "no such album" ∧
    (UpdateProjectBudgets f2 albumID now2 db2 projectID quantity custID).1.reportedError
      = some "not enough inventory" ∧
    (UpdateProjectBudgets f1 albumID now1 db1 projectID quantity custID).1.reportedError
      ≠ (UpdateProjectBudgets f2 albumID now2 db2 projectID quantity custID).1.reportedError ∧
    (UpdateProjectBudgets f1 albumID now1 db1 projectID quantity custID).1
      ≠ (UpdateProjectBudgets f2 albumID now2 db2 projectID quantity custID).1 := by
  rw [run_no_row f1 albumID now1 db1 projectID quantity custID hb1 hs1 h1,
    run_not_enough f2 albumID now2 db2 projectID quantity custID a hb2 hs2 h2 hq]
  refine ⟨rfl, rfl, ?_, ?_⟩
  · show some "no such album" ≠ some "not enough inventory"
    decide
  · show Outcome.panicked "no such album" ≠ Outcome.panicked "not enough inventory"
    decide

/-- C8 at a concrete input: album 9 has no row; album 1 holds 2 units and 3
are requested. -/
theorem C8_not_found_differs_witness :
    (UpdateProjectBudgets Faults.none 9 0 store2 1 3 7).1.reportedError
      = some "no such album" ∧
    (UpdateProjectBudgets Faults.none 9 0 (⟨[⟨9, 2⟩], [], []⟩ : Store) 1 3 7).1.reportedError
      = some "not enough inventory" ∧
    (UpdateProjectBudgets Faults.none 9 0 store2 1 3 7).1.reportedError
      ≠ (UpdateProjectBudgets Faults.none 9 0 (⟨[⟨9, 2⟩], [], []⟩ : Store) 1 3 7).1.reportedError ∧
    (UpdateProjectBudgets Faults.none 9 0 store2 1 3 7).1
      ≠ (UpdateProjectBudgets Faults.none 9 0 (⟨[⟨9, 2⟩], [], []⟩ : Store) 1 3 7).1 :=
  C8_not_found_differs_from_not_enough Faults.none Faults.none 9 0 0 store2 ⟨[⟨9, 2⟩], [], []⟩
    1 3 7 ⟨9, 2⟩ (by decide) (by decide) (by decide) (by decide) (by decide) (by decide)
    (by decide)

/-- C9 as stated fails: at album quantity 5 and requested quantity 3 the
transaction of `UpdateProjectBudgets` is begun with nil options; the only
isolation level asked for is the default one, and no `BeginTx` event of the
run carries the serializable level. -/
theorem C9_inventory_check_uses_default_isolation :
    (UpdateProjectBudgets Faults.none 1 0 store5 1 3 7).2.trace.head?
      = some (.beginTx none none) ∧
    beginIsolations (UpdateProjectBudgets Faults.none 1 0 store5 1 3 7).2.trace
      = [.LevelDefault] ∧
    IsolationLevel.LevelSerializable ∉
      beginIsolations (UpdateProjectBudgets Faults.none 1 0 store5 1 3 7).2.trace := by
  decide

/-- C9 amended.  On every run, the unit of work in which
`UpdateProjectBudgets` performs its inventory check is begun with nil options,
that is with the default isolation level of the store; it is the `BeginTx` of
`main` that asks for the serializable level. -/
theorem C9_begin_options (f : Faults) (albumID : Int) (now : Nat)
    (db : Store) (projectID quantity custID : Int) (mf : MainFaults) :
    (UpdateProjectBudgets f albumID now db projectID quantity custID).2.trace.head?
      = some (.beginTx none f.beginTx) ∧
    beginIsolations (UpdateProjectBudgets f albumID now db projectID quantity custID).2.trace
      = [.LevelDefault] ∧
    beginIsolations (main mf db).2.1.trace
      = (if mf.sqlOpen = none ∧ mf.getProjectsBefore = none
          then [.LevelSerializable] else []) := by
  refine ⟨?_, ?_, ?_⟩
  · cases hb : f.beginTx with
    | some e => rw [run_begin_fails f albumID now db projectID quantity custID e hb]; rfl
    | none =>
      cases hs : f.scan with
      | some e => rw [run_scan_fails f albumID now db projectID quantity custID e hb hs]; rfl
      | none =>
        cases ha : db.findAlbum albumID with
        | none => rw [run_no_row f albumID now db projectID quantity custID hb hs ha]; rfl
        | some a =>
          by_cases hq : quantity ≤ a.quantity
          · cases hx : f.execBudget with
            | some e =>
              rw [run_budget_fails f albumID now db projectID quantity custID a e
                hb hs ha hq hx]
              rfl
            | none =>
              cases hr : f.rowsAffected with
              | some e =>
                rw [run_rowsAffected_fails f albumID now db projectID quantity custID a e
                  hb hs ha hq hx hr]
                rfl
              | none =>
                cases hc : f.commit with
                | some e =>
                  rw [run_commit_fails f albumID now db projectID quantity custID a e
                    hb hs ha hq hx hr hc]
                  rfl
                | none =>
                  rw [run_commit_ok f albumID now db projectID quantity custID a
                    hb hs ha hq hx hr hc]
                  rfl
          · rw [run_not_enough f albumID now db projectID quantity custID a hb hs ha
              (lt_of_not_ge hq)]
            rfl
  · cases hb : f.beginTx with
    | some e => rw [run_begin_fails f albumID now db projectID quantity custID e hb]; rfl
    | none =>
      cases hs : f.scan with
      | some e => rw [run_scan_fails f albumID now db projectID quantity custID e hb hs]; rfl
      | none =>
        cases ha : db.findAlbum albumID with
        | none => rw [run_no_row f albumID now db projectID quantity custID hb hs ha]; rfl
        | some a =>
          by_cases hq : quantity ≤ a.quantity
          · cases hx : f.execBudget with
            | some e =>
              rw [run_budget_fails f albumID now db projectID quantity custID a e
                hb hs ha hq hx]
              rfl
            | none =>
              cases hr : f.rowsAffected with
              | some e =>
                rw [run_rowsAffected_fails f albumID now db projectID quantity custID a e
                  hb hs ha hq hx hr]
                rfl
              | none =>
                cases hc : f.commit with
                | some e =>
                  rw [run_commit_fails f albumID now db projectID quantity custID a e
                    hb hs ha hq hx hr hc]
                  rfl
                | none =>
                  rw [run_commit_ok f albumID now db projectID quantity custID a
                    hb hs ha hq hx hr hc]
                  rfl
          · rw [run_not_enough f albumID now db projectID quantity custID a hb hs ha
              (lt_of_not_ge hq)]
            rfl
  · cases ho : mf.sqlOpen <;> cases hg : mf.getProjectsBefore <;> cases hb : mf.beginTx <;>
      cases hg2 : mf.getProjectsAfter <;>
      simp [main, GetProjects, BeginTx, World.emit, ho, hg, hb, hg2, beginIsolations,
        requestedIsolation]

/-- C10: evaluation of the budget UPDATE of line 97 for project 1 on budgets
100 and 50: the budget 100 becomes 120, which is `ROUND(100 * 1.2)`, not the
110 of a 10% increase; the budget of project 2 is unchanged. -/
theorem C10_budget_update_is_twenty_percent :
    ((Stmt.updateBudget 1).apply store5).1.projects = [⟨1, 120⟩, ⟨2, 50⟩] ∧
    newBudget 100 = 120 ∧
    budgetPlus10Percent 100 = 110 ∧
    (UpdateProjectBudgets Faults.none 1 0 store5 1 3 7).2.persisted.findProject 1
      = some ⟨1, 120⟩ ∧
    (UpdateProjectBudgets Faults.none 1 0 store5 1 3 7).2.persisted.findProject 1
      ≠ some ⟨1, budgetPlus10Percent 100⟩ := by
  decide

end CourseGo
